import Mathlib

/-!
Shallow embedding of the `adkagents` repository (three Python source files:
`autonomous_agent.py`, `script_agent.py`, `complete_script_img_agent.py`).

External effects (the generative-model network call, `json.loads`, the
filesystem, `random.choice`, Python's process-seeded `hash`) are modelled as
explicit oracle parameters: a call that can raise an exception is an
`Except String` value (the `String` being the exception text), a file write
that can fail is a `Bool`-valued oracle on paths, and the nondeterministic
pieces (hash seed, random characters) are function/string parameters.  Every
function is otherwise a direct transcription of the corresponding Python
body.
-/

/-- A JSON value as produced by Python's `json.loads` (numbers restricted to
integers, which is all this program ever handles). -/
inductive Json where
  | null
  | bool (b : Bool)
  | num (n : Int)
  | str (s : String)
  | arr (elems : List Json)
  | obj (fields : List (String × Json))

/-! ### Python string primitives used by the source -/

/-- Characters stripped by Python's `str.strip()`. -/
def pyWs (c : Char) : Bool :=
  (c == ' ') || (c == '\t') || (c == '\n') || (c == '\r') || (c == '\x0b') || (c == '\x0c')

/-- Python `s.strip()`. -/
def pyStrip (s : String) : String :=
  (((s.toList.dropWhile pyWs).reverse.dropWhile pyWs).reverse).asString

/-- Python `s.lower()` (the source only ever lowercases ASCII). -/
def pyLower (s : String) : String :=
  (s.toList.map Char.toLower).asString

/-- Python `s.replace(a, b)` for single-character `a`, `b`. -/
def pyReplaceChar (a b : Char) (s : String) : String :=
  (s.toList.map (fun c => if c == a then b else c)).asString

/-- Python `s.replace(a, "")` for a single-character `a`. -/
def pyDeleteChar (a : Char) (s : String) : String :=
  (s.toList.filter (fun c => !(c == a))).asString

/-- Is `sub` a contiguous sublist of `l`?  Models Python's `sub in s`. -/
def containsSub (sub : List Char) : List Char → Bool
  | [] => sub.isEmpty
  | c :: rest => List.isPrefixOf sub (c :: rest) || containsSub sub rest

/-- Python `s.split(sep, 1)[-1]` for `sep = '.'`: everything after the first
period, or the whole string when there is none. -/
def afterFirstDot (s : String) : String :=
  match s.toList.dropWhile (fun c => !(c == '.')) with
  | [] => s
  | _ :: t => t.asString

/-- One decimal digit character. -/
def digitChar (n : Nat) : Char :=
  match n with
  | 0 => '0' | 1 => '1' | 2 => '2' | 3 => '3' | 4 => '4'
  | 5 => '5' | 6 => '6' | 7 => '7' | 8 => '8' | _ => '9'

/-- Fuelled digit accumulator for `str` of a natural number; the fuel is
always taken to be the number itself, which is plenty. -/
def natStrGo : Nat → Nat → List Char → List Char
  | 0, n, acc => digitChar (n % 10) :: acc
  | fuel + 1, n, acc =>
    if n < 10 then digitChar n :: acc
    else natStrGo fuel (n / 10) (digitChar (n % 10) :: acc)

/-- Python `str(n)` for a non-negative integer. -/
def pyStrNat (n : Nat) : String :=
  (natStrGo n n []).asString

/-- Python `str(i)` for an integer. -/
def pyStrInt (i : Int) : String :=
  if i < 0 then "-" ++ pyStrNat i.natAbs else pyStrNat i.toNat

/-- Fuelled left-to-right non-overlapping replacement of `pat` by `repl`,
exactly Python's `str.replace` for a non-empty pattern; the fuel is the
length of the subject, which is always sufficient. -/
def replaceAllGo (pat repl : List Char) : Nat → List Char → List Char
  | 0, l => l
  | _ + 1, [] => []
  | fuel + 1, c :: rest =>
    if List.isPrefixOf pat (c :: rest) then
      repl ++ replaceAllGo pat repl fuel (List.drop (pat.length - 1) rest)
    else
      c :: replaceAllGo pat repl fuel rest

/-- Python `s.replace(pat, repl)` (non-empty `pat`). -/
def pyReplace (s pat repl : String) : String :=
  (replaceAllGo pat.toList repl.toList s.toList.length s.toList).asString

/-! ### `autonomous_agent.py`: the three tools -/

/-- The phrase filter of `generate_video_content`:
`any(phrase in line.lower() for phrase in ["any more", "certainly", "here are"])`. -/
def bannedAny (line : String) : Bool :=
  ["any more", "certainly", "here are"].any
    (fun phrase => containsSub phrase.toList (pyLower line).toList)

/-- The numbering-removal step of the cleaning loop:
`if '. ' in line[:5]: line = line.split('.', 1)[-1].strip()`. -/
def denumber (line : String) : String :=
  if containsSub ". ".toList (line.toList.take 5) then pyStrip (afterFirstDot line)
  else line

/-- The `for line in content_lines` cleaning loop of `generate_video_content`
(`autonomous_agent.py`, lines 31-38), transcribed clause by clause:
strip; keep only non-empty lines free of the banned phrases; remove leading
numbering (`denumber`); keep the result if non-empty. -/
def cleanLoop : List String → List String
  | [] => []
  | raw :: rest =>
    if pyStrip raw ≠ "" ∧ bannedAny (pyStrip raw) = false then
      if denumber (pyStrip raw) ≠ "" then denumber (pyStrip raw) :: cleanLoop rest
      else cleanLoop rest
    else cleanLoop rest

/-- `content_list[:scene_count]` computed from the model's response text
(`response.text.split('\n')` fed through the cleaning loop). -/
def contentPoints (text : String) (scene_count : Nat) : List String :=
  (cleanLoop (text.splitOn "\n")).take scene_count

/-- `generate_video_content(topic, scene_count)` (`autonomous_agent.py`,
lines 18-42).  `modelResult` is the outcome of the
`model.generate_content(prompt)` call inside the `try`: `.ok text` is a
response, `.error e` an exception caught by the `except` clause. -/
def generate_video_content (topic : String) (scene_count : Nat)
    (modelResult : Except String String) : Json :=
  match modelResult with
  | .error e => Json.obj [("error", Json.str e)]
  | .ok text =>
    Json.obj [("content_points", Json.arr ((contentPoints text scene_count).map Json.str))]

/-- `clean_query = query.lower().replace(" ", "-").replace(".", "")`. -/
def cleanQuery (query : String) : String :=
  pyDeleteChar '.' (pyReplaceChar ' ' '-' (pyLower query))

/-- The common URL stem shared by the two fields of `search_stock_video`:
`https://media.gettyimages.com/id/{video_id}/video/{clean_query}`. -/
def ssvBase (pyHash : String → Int) (query : String) : String :=
  "https://media.gettyimages.com/id/" ++ pyStrNat ((pyHash query).natAbs % 10000000)
    ++ "/video/" ++ cleanQuery query

/-- `search_stock_video(query)` (`autonomous_agent.py`, lines 44-55).
`pyHash` models Python's process-seeded `hash` on strings; the body can
raise no exception, so the `except` branch is unreachable and the result is
always the success object. -/
def search_stock_video (pyHash : String → Int) (query : String) : Json :=
  Json.obj [("video", Json.str (ssvBase pyHash query ++ ".mp4")),
            ("poster", Json.str (ssvBase pyHash query ++ ".jpg"))]

/-- Oracles for `generate_audio_file`: the outcome of
`Path("static/audio").mkdir(...)`, the four characters drawn by
`random.choice(string.ascii_uppercase + string.digits)`, and the outcome of
the `open`/`write` of the placeholder file. -/
structure AudioEnv where
  mkdirResult : Except String Unit
  randomChars : String
  writeResult : Except String Unit

/-- `filename = f"static/audio/{index}_{random_chars}.mp3"`. -/
def audioFilename (index : Int) (randomChars : String) : String :=
  "static/audio/" ++ pyStrInt index ++ "_" ++ randomChars ++ ".mp3"

/-- `generate_audio_file(text, index)` (`autonomous_agent.py`, lines 57-75).
Returns the serialized result together with the list of paths actually
written to disk (the placeholder is written to
`filename.replace('.mp3', '.txt')`; the reported `.mp3` path is never
written). -/
def generate_audio_file (text : String) (index : Int) (env : AudioEnv) :
    Json × List String :=
  match env.mkdirResult with
  | .error e => (Json.obj [("error", Json.str e)], [])
  | .ok _ =>
    let filename := audioFilename index env.randomChars
    let txtPath := pyReplace filename ".mp3" ".txt"
    match env.writeResult with
    | .error e => (Json.obj [("error", Json.str e)], [])
    | .ok _ => (Json.obj [("audio_file", Json.str filename), ("text", Json.str text)], [txtPath])

/-- A serialized tool payload in the sense of the spec's ToolResult: an
object carrying either the tool's success fields or an `error` field. -/
def isToolResult (j : Json) : Prop :=
  (∃ e, j = Json.obj [("error", Json.str e)]) ∨
  (∃ pts : List String, j = Json.obj [("content_points", Json.arr (pts.map Json.str))]) ∨
  (∃ v p, j = Json.obj [("video", Json.str v), ("poster", Json.str p)]) ∨
  (∃ f t, j = Json.obj [("audio_file", Json.str f), ("text", Json.str t)])

/-! ### `complete_script_img_agent.py`: the three-stage pipeline -/

/-- The `for i, keyword in enumerate(keywords)` loop of
`VideoContentPipeline.generate_images` (lines 144-171).  The first `Nat` is
the running `enumerate` index.  A non-string element makes
`keyword.replace(' ', '_')` raise `AttributeError`, which the per-keyword
`except` swallows (the keyword is skipped); a path on which `writeOk` is
`false` models `open(filepath, 'w')` raising, likewise swallowed. -/
def imageLoop (writeOk : String → Bool) (outFolder : String) :
    Nat → List Json → List String
  | _, [] => []
  | i, item :: rest =>
    match item with
    | Json.str keyword =>
      let filename := pyLower (pyReplaceChar ' ' '_' keyword) ++ "_" ++ pyStrNat (i + 1) ++ ".txt"
      let filepath := outFolder ++ "/" ++ filename
      if writeOk filepath then filepath :: imageLoop writeOk outFolder (i + 1) rest
      else imageLoop writeOk outFolder (i + 1) rest
    | _ => imageLoop writeOk outFolder (i + 1) rest

/-- `VideoContentPipeline.generate_images(keywords_json, output_folder)`
(lines 130-180).  `parsed` is the outcome of `json.loads(keywords_json)`:
`.error` is a `json.JSONDecodeError`, caught by the outer `except` clause,
which returns `[]`.  `keywords_data.get("keywords", [])` requires a dict
(`AttributeError` on anything else is caught by the outer catch-all, giving
`[]`) and defaults to `[]` when the key is missing.  Python iteration over
the resulting value yields the elements of a list, the one-character
substrings of a string, or the keys of a dict; iterating anything else
raises `TypeError`, again caught by the outer catch-all. -/
def generate_images (parsed : Except String Json) (writeOk : String → Bool)
    (outFolder : String) : List String :=
  match parsed with
  | .error _ => []
  | .ok j =>
    match j with
    | Json.obj fields =>
      match List.lookup "keywords" fields with
      | none => imageLoop writeOk outFolder 0 []
      | some v =>
        match v with
        | Json.arr items => imageLoop writeOk outFolder 0 items
        | Json.str s =>
          imageLoop writeOk outFolder 0 (s.toList.map (fun c => Json.str (String.singleton c)))
        | Json.obj fs => imageLoop writeOk outFolder 0 (fs.map (fun p => Json.str p.1))
        | _ => []
    | _ => []

/-- External oracles for one run of `VideoContentPipeline`:
the terminal answer (or raised exception) of the stage-1 runner given the
topic, the terminal answer of the stage-2 runner given the script text, the
behaviour of `json.loads` on the stage-2 text, the outcome of
`Path("generated_images").mkdir(exist_ok=True)`, and the per-path outcome
of the placeholder file writes. -/
structure PipelineEnv where
  scriptResult : String → Except String String
  keywordResult : String → Except String String
  parse : String → Except String Json
  mkdirResult : Except String Unit
  writeOk : String → Bool

/-- The dictionary returned by `run_complete_pipeline` (lines 219-224). -/
structure PipeResult where
  script : String
  keywords : String
  generated_files : List String
  images_folder : String

/-- `VideoContentPipeline.run_complete_pipeline(topic)` (lines 182-224).
There is no `try`/`except` in this method, so an exception raised by
`generate_script`, `extract_keywords` or `create_images_folder` propagates
to the caller (`.error`); `generate_images` itself never raises. -/
def run_complete_pipeline (env : PipelineEnv) (topic : String) : Except String PipeResult :=
  match env.scriptResult topic with
  | .error e => .error e
  | .ok script =>
    match env.keywordResult script with
    | .error e => .error e
    | .ok keywords =>
      match env.mkdirResult with
      | .error e => .error e
      | .ok _ =>
        .ok { script := script
              keywords := keywords
              generated_files := generate_images (env.parse keywords) env.writeOk "generated_images"
              images_folder := "generated_images" }

/-! ### Module start-up (`load_dotenv()` / `assert os.getenv(...)`) -/

/-- Python truthiness of an `os.getenv` result: `None` and `""` are falsy. -/
def pyTruthy (v : Option String) : Bool :=
  match v with
  | none => false
  | some s => s != ""

/-- The module-level objects built after the assertion passes (the
`LlmAgent` with its registered tools, in all three source files only ever
constructed below the `assert`). -/
structure ModuleState where
  agentName : String
  tools : List String

/-- The top-of-module start-up sequence shared by all three source files:
`load_dotenv()` then `assert os.getenv("GOOGLE_API_KEY"), "Set
GOOGLE_API_KEY in .env"` and only then agent construction.  `env` is the
post-`load_dotenv` environment; a falsy value makes the `assert` raise
`AssertionError` with the given message before any agent exists. -/
def module_init (env : String → Option String) : Except String ModuleState :=
  if pyTruthy (env "GOOGLE_API_KEY") then
    .ok { agentName := "video_creator_agent"
          tools := ["generate_video_content", "search_stock_video", "generate_audio_file"] }
  else
    .error "Set GOOGLE_API_KEY in .env"

/-! ### Claim-side specification definitions -/

/-- The per-line normalisation rule as the claim about
`generate_video_content` states it: the line is stripped; a line containing
`"any more"`, `"certainly"` or `"here are"` (case-insensitively) is
dropped; a line whose first five characters contain a period followed by a
space has the text up to and including its first period stripped off; an
element is retained only if non-empty. -/
def processLineSpec (raw : String) : Option String :=
  if bannedAny (pyStrip raw) = true then none
  else if denumber (pyStrip raw) = "" then none
  else some (denumber (pyStrip raw))

/-! ### Concrete oracle instantiations used below -/

/-- A filesystem on which every placeholder write succeeds. -/
def allWritesOk : String → Bool := fun _ => true

/-- A fixed value for Python's process-seeded string `hash`. -/
def cHash : String → Int := fun _ => -42

/-- The `json.loads` error text for input that is not JSON at all. -/
def jsonErr : String := "Expecting value: line 1 column 1 (char 0)"

/-- A pipeline run whose stage-2 terminal answer is prose rather than the
required `\x7b"keywords": [...]\x7d` object, so `json.loads` on it raises
`JSONDecodeError`. -/
def envParseFailC3 : PipelineEnv :=
  { scriptResult := fun _ => .ok "SCRIPT TEXT"
    keywordResult := fun _ => .ok "I could not produce keywords."
    parse := fun _ => .error jsonErr
    mkdirResult := .ok ()
    writeOk := allWritesOk }

/-- A pipeline run in which stage 3 fails internally: `json.loads` raises
on the stage-2 answer, an exception the `except` clauses of
`generate_images` absorb. -/
def envAbsorbC4 : PipelineEnv :=
  { scriptResult := fun _ => .ok "A fine script."
    keywordResult := fun _ => .ok "Sorry, here is prose instead of JSON."
    parse := fun _ => .error jsonErr
    mkdirResult := .ok ()
    writeOk := allWritesOk }

/-- The stage-2 terminal answer used for the keyword-count refutation: a
well-formed keywords object holding only two keywords. -/
def kwJsonTwo : String := "\x7b\"keywords\": [\"energy\", \"cell\"]\x7d"

/-- The `json.loads` image of `kwJsonTwo`. -/
def kwJsonTwoParsed : Json :=
  Json.obj [("keywords", Json.arr [Json.str "energy", Json.str "cell"])]

/-- A pipeline run whose stage-2 answer parses to exactly two keywords. -/
def envTwoKeywordsC5 : PipelineEnv :=
  { scriptResult := fun _ => .ok "A fine script."
    keywordResult := fun _ => .ok kwJsonTwo
    parse := fun s => if s = kwJsonTwo then .ok kwJsonTwoParsed else .error jsonErr
    mkdirResult := .ok ()
    writeOk := allWritesOk }

/-- A pipeline run whose stage-2 answer is valid JSON but an object with no
`keywords` key. -/
def envNoKeywordsKeyC9 : PipelineEnv :=
  { scriptResult := fun _ => .ok "A fine script."
    keywordResult := fun _ => .ok "\x7b\"words\": []\x7d"
    parse := fun s => if s = "\x7b\"words\": []\x7d" then .ok (Json.obj [("words", Json.arr [])])
                      else .error jsonErr
    mkdirResult := .ok ()
    writeOk := allWritesOk }

/-- An environment whose only entry is `GOOGLE_API_KEY` set to the empty
string (e.g. `GOOGLE_API_KEY= python autonomous_agent.py`). -/
def emptyKeyEnv : String → Option String :=
  fun k => if k = "GOOGLE_API_KEY" then some "" else none

/-- A concrete oracle record for one `generate_audio_file` call: directory
creation and file write succeed, `random.choice` drew `A`, `B`, `1`, `2`. -/
def audioEnvW : AudioEnv :=
  { mkdirResult := .ok (), randomChars := "AB12", writeResult := .ok () }

/-! ### Helper lemmas -/

theorem isPrefixOf_self (l : List Char) : List.isPrefixOf l l = true := by
  induction l with
  | nil => rfl
  | cons c cs ih => simp [List.isPrefixOf, ih]

theorem replaceAllGo_nil (pat repl : List Char) (fuel : Nat) :
    replaceAllGo pat repl fuel [] = [] := by
  cases fuel <;> rfl

/-- Replacing a pattern that starts with a period in a subject whose only
period starts the final occurrence of the pattern rewrites exactly that
tail. -/
theorem replaceAllGo_stem (ps repl : List Char) :
    ∀ (stem : List Char) (fuel : Nat), (stem ++ '.' :: ps).length ≤ fuel →
      (∀ c ∈ stem, c ≠ '.') →
      replaceAllGo ('.' :: ps) repl fuel (stem ++ '.' :: ps) = stem ++ repl := by
  intro stem
  induction stem with
  | nil =>
    intro fuel hfuel _
    cases fuel with
    | zero => simp at hfuel
    | succ f =>
      show replaceAllGo ('.' :: ps) repl (f + 1) ('.' :: ps) = repl
      simp only [replaceAllGo, isPrefixOf_self, if_true, List.length_cons,
        Nat.add_sub_cancel, List.drop_length, replaceAllGo_nil, List.append_nil]
  | cons c cs ih =>
    intro fuel hfuel hnd
    cases fuel with
    | zero => simp at hfuel
    | succ f =>
      have hc : ('.' == c) = false :=
        beq_eq_false_iff_ne.mpr (fun h => hnd c (by simp) h.symm)
      show replaceAllGo ('.' :: ps) repl (f + 1) (c :: (cs ++ '.' :: ps)) = c :: (cs ++ repl)
      simp only [replaceAllGo, List.isPrefixOf, hc, Bool.false_and]
      rw [if_neg Bool.false_ne_true]
      have hlen : (cs ++ '.' :: ps).length ≤ f := by
        simpa using Nat.le_of_succ_le_succ (by simpa using hfuel)
      rw [ih f hlen (fun x hx => hnd x (by simp [hx]))]

theorem digitChar_ne_dot (n : Nat) : digitChar n ≠ '.' := by
  unfold digitChar
  split <;> decide

theorem natStrGo_ne_dot :
    ∀ (fuel n : Nat) (acc : List Char), (∀ c ∈ acc, c ≠ '.') →
      ∀ c ∈ natStrGo fuel n acc, c ≠ '.' := by
  intro fuel
  induction fuel with
  | zero =>
    intro n acc hacc c hc
    simp only [natStrGo] at hc
    rcases List.mem_cons.mp hc with h | h
    · exact h ▸ digitChar_ne_dot (n % 10)
    · exact hacc c h
  | succ f ih =>
    intro n acc hacc c hc
    simp only [natStrGo] at hc
    split at hc
    · rcases List.mem_cons.mp hc with h | h
      · exact h ▸ digitChar_ne_dot n
      · exact hacc c h
    · refine ih (n / 10) (digitChar (n % 10) :: acc) ?_ c hc
      intro x hx
      rcases List.mem_cons.mp hx with h | h
      · exact h ▸ digitChar_ne_dot (n % 10)
      · exact hacc x h

theorem pyStrNat_ne_dot (n : Nat) : ∀ c ∈ (pyStrNat n).toList, c ≠ '.' := by
  intro c hc
  exact natStrGo_ne_dot n n [] (by simp) c hc

theorem pyStrInt_ne_dot (i : Int) : ∀ c ∈ (pyStrInt i).toList, c ≠ '.' := by
  intro c hc
  unfold pyStrInt at hc
  split at hc
  · simp only [String.toList, String.data_append] at hc
    rcases List.mem_append.mp hc with h | h
    · intro heq
      subst heq
      simpa using h
    · exact pyStrNat_ne_dot i.natAbs c h
  · exact pyStrNat_ne_dot i.toNat c hc

theorem bannedAny_empty : bannedAny "" = false := rfl

theorem denumber_empty : denumber "" = "" := rfl

/-- The source's cleaning loop is the per-line rule stated by the claim,
applied line by line. -/
theorem cleanLoop_eq_filterMap (l : List String) :
    cleanLoop l = l.filterMap processLineSpec := by
  induction l with
  | nil => rfl
  | cons raw rest ih =>
    rw [List.filterMap_cons]
    by_cases he : pyStrip raw = ""
    · have hp : processLineSpec raw = none := by
        rw [processLineSpec, he, bannedAny_empty, denumber_empty]
        simp
      rw [hp, cleanLoop, if_neg (fun hcontra => hcontra.1 he), ih]
    · by_cases hb : bannedAny (pyStrip raw) = false
      · have hbt : ¬ bannedAny (pyStrip raw) = true := by simp [hb]
        by_cases hd : denumber (pyStrip raw) = ""
        · have hp : processLineSpec raw = none := by
            rw [processLineSpec, if_neg hbt, if_pos hd]
          rw [hp, cleanLoop, if_pos ⟨he, hb⟩, if_neg (fun hcontra => hcontra hd), ih]
        · have hp : processLineSpec raw = some (denumber (pyStrip raw)) := by
            rw [processLineSpec, if_neg hbt, if_neg hd]
          rw [hp, cleanLoop, if_pos ⟨he, hb⟩, if_pos hd, ih]
      · have hbt : bannedAny (pyStrip raw) = true := by
          cases hx : bannedAny (pyStrip raw)
          · exact absurd hx hb
          · rfl
        have hp : processLineSpec raw = none := by
          rw [processLineSpec, if_pos hbt]
        rw [hp, cleanLoop, if_neg (fun hcontra => hb hcontra.2), ih]

theorem processLineSpec_ne_empty {raw p : String}
    (h : processLineSpec raw = some p) : p ≠ "" := by
  unfold processLineSpec at h
  split at h
  · exact absurd h (by simp)
  · split at h
    · exact absurd h (by simp)
    · rename_i hd
      intro hp
      apply hd
      injection h with h
      rw [← h] at hp
      exact hp

/-- Every line retained by the cleaning loop is non-empty. -/
theorem cleanLoop_ne_empty {l : List String} {p : String}
    (h : p ∈ cleanLoop l) : p ≠ "" := by
  rw [cleanLoop_eq_filterMap] at h
  rcases List.mem_filterMap.mp h with ⟨raw, _, hsome⟩
  exact processLineSpec_ne_empty hsome

/-- When every element of `keywords` is a string and every placeholder
write succeeds, the image loop emits exactly one path per keyword. -/
theorem imageLoop_length (writeOk : String → Bool) (outFolder : String) :
    ∀ (items : List Json) (i : Nat), (∀ x ∈ items, ∃ s, x = Json.str s) →
      (∀ p, writeOk p = true) →
      (imageLoop writeOk outFolder i items).length = items.length := by
  intro items
  induction items with
  | nil => intro i _ _; rfl
  | cons x rest ih =>
    intro i hstr hw
    rcases hstr x (by simp) with ⟨s, rfl⟩
    rw [imageLoop]
    rw [if_pos (hw _)]
    simp only [List.length_cons]
    rw [ih (i + 1) (fun y hy => hstr y (by simp [hy])) hw]

/-- When the parsed payload is an object whose `keywords` entry is an array
of strings and every write succeeds, `generate_images` emits one path per
keyword. -/
theorem generate_images_length (writeOk : String → Bool) (outFolder : String)
    (fs : List (String × Json)) (items : List Json)
    (h1 : List.lookup "keywords" fs = some (Json.arr items))
    (h2 : ∀ x ∈ items, ∃ s, x = Json.str s)
    (h3 : ∀ p, writeOk p = true) :
    (generate_images (Except.ok (Json.obj fs)) writeOk outFolder).length = items.length := by
  simp only [generate_images, h1]
  exact imageLoop_length writeOk outFolder items 0 h2 h3

/-! ### Claim theorems -/

/-- Claim C1: for every input (any topic and scene count, any query string,
any text and index) and every outcome of the external calls each tool makes
inside its `try` block, each of `generate_video_content`,
`search_stock_video` and `generate_audio_file` returns a serialized JSON
object that carries either its success fields or an `error` field.  The
tools are total Lean functions over all oracle outcomes, which is the
embedding of "never raises past its own boundary": every exception a tool
body can raise is caught by its own `except` clause and turned into the
`error` object. -/
theorem c1_tools_return_wellformed_results
    (topic : String) (scene_count : Nat) (modelResult : Except String String)
    (pyHash : String → Int) (query : String)
    (text : String) (index : Int) (aenv : AudioEnv) :
    isToolResult (generate_video_content topic scene_count modelResult) ∧
    isToolResult (search_stock_video pyHash query) ∧
    isToolResult (generate_audio_file text index aenv).fst := by
  refine ⟨?_, ?_, ?_⟩
  · cases modelResult with
    | error e => exact Or.inl ⟨e, rfl⟩
    | ok t => exact Or.inr (Or.inl ⟨contentPoints t scene_count, rfl⟩)
  · exact Or.inr (Or.inr (Or.inl ⟨_, _, rfl⟩))
  · rcases aenv with ⟨mk, rc, wr⟩
    cases mk with
    | error e => exact Or.inl ⟨e, rfl⟩
    | ok u =>
      cases wr with
      | error e => exact Or.inl ⟨e, rfl⟩
      | ok v => exact Or.inr (Or.inr (Or.inr ⟨_, _, rfl⟩))

/-- Witness for C1 at concrete inputs. -/
theorem c1_witness :
    isToolResult (generate_video_content "powerhouse of the cell" 7 (Except.ok "1. A point")) ∧
    isToolResult (search_stock_video cHash "mitochondria") ∧
    isToolResult (generate_audio_file "hello" 3 audioEnvW).fst :=
  c1_tools_return_wellformed_results "powerhouse of the cell" 7 (Except.ok "1. A point")
    cHash "mitochondria" "hello" 3 audioEnvW

/-- Claim C6: for every model response text and every scene count,
`generate_video_content` returns a `content_points` list that (i) has
length at most `scene_count`, (ii) contains only non-empty strings, and
(iii) equals, up to the `[:scene_count]` truncation, the response's lines
each processed by the claim's per-line rule `processLineSpec`: strip, drop
any line containing "any more"/"certainly"/"here are" case-insensitively,
strip the leading numbering (text up to and including the first period)
when the first five characters contain a period followed by a space, and
drop empty results. -/
theorem c6_content_points_normalisation (topic : String) (scene_count : Nat) (text : String) :
    generate_video_content topic scene_count (Except.ok text) =
      Json.obj [("content_points", Json.arr ((contentPoints text scene_count).map Json.str))] ∧
    (contentPoints text scene_count).length ≤ scene_count ∧
    (∀ p ∈ contentPoints text scene_count, p ≠ "") ∧
    contentPoints text scene_count =
      ((text.splitOn "\n").filterMap processLineSpec).take scene_count := by
  refine ⟨rfl, ?_, ?_, ?_⟩
  · exact List.length_take_le scene_count _
  · intro p hp
    exact cleanLoop_ne_empty (List.mem_of_mem_take hp)
  · unfold contentPoints
    rw [cleanLoop_eq_filterMap]

/-- Witness for C6 at a concrete response text. -/
theorem c6_witness :
    (contentPoints "1. A\n2. B\n3. C" 2).length ≤ 2 ∧
    (∀ p ∈ contentPoints "1. A\n2. B\n3. C" 2, p ≠ "") :=
  ⟨(c6_content_points_normalisation "t" 2 "1. A\n2. B\n3. C").2.1,
   (c6_content_points_normalisation "t" 2 "1. A\n2. B\n3. C").2.2.1⟩

/-- Claim C7: `search_stock_video` is deterministic (equal queries give
equal results), and its success object's `video` and `poster` URLs share
one base embedding the numeric id `abs(hash(query)) % 10000000` and the
slug (query lowercased, spaces replaced by hyphens, periods removed),
differing only in the `.mp4` versus `.jpg` extension. -/
theorem c7_stock_video_urls (pyHash : String → Int) (q1 q2 : String) (heq : q1 = q2) :
    search_stock_video pyHash q1 = search_stock_video pyHash q2 ∧
    search_stock_video pyHash q1 =
      Json.obj [("video", Json.str (ssvBase pyHash q1 ++ ".mp4")),
                ("poster", Json.str (ssvBase pyHash q1 ++ ".jpg"))] ∧
    ssvBase pyHash q1 = "https://media.gettyimages.com/id/"
      ++ pyStrNat ((pyHash q1).natAbs % 10000000) ++ "/video/" ++ cleanQuery q1 ∧
    cleanQuery q1 = pyDeleteChar '.' (pyReplaceChar ' ' '-' (pyLower q1)) := by
  subst heq
  exact ⟨rfl, rfl, rfl, rfl⟩

/-- Witness for C7 at a concrete hash function and query. -/
theorem c7_witness :
    search_stock_video cHash "Cell Biology 2.0" = search_stock_video cHash "Cell Biology 2.0" ∧
    search_stock_video cHash "Cell Biology 2.0" =
      Json.obj [("video", Json.str (ssvBase cHash "Cell Biology 2.0" ++ ".mp4")),
                ("poster", Json.str (ssvBase cHash "Cell Biology 2.0" ++ ".jpg"))] ∧
    ssvBase cHash "Cell Biology 2.0" = "https://media.gettyimages.com/id/"
      ++ pyStrNat ((cHash "Cell Biology 2.0").natAbs % 10000000) ++ "/video/"
      ++ cleanQuery "Cell Biology 2.0" ∧
    cleanQuery "Cell Biology 2.0" =
      pyDeleteChar '.' (pyReplaceChar ' ' '-' (pyLower "Cell Biology 2.0")) :=
  c7_stock_video_urls cHash "Cell Biology 2.0" "Cell Biology 2.0" rfl

/-- Claim C2 counterexample: `\x7b"keywords": ["mitochondria", 5]\x7d` is a
keyword list a stage-2 terminal answer can carry (nothing validates it),
yet stage 3 emits one artifact, not two: the non-string keyword `5` makes
`keyword.replace(' ', '_')` raise `AttributeError`, which the per-keyword
`except` clause swallows, skipping that keyword.  So the generated-files
list is shorter than the keyword list, refuting "exactly one artifact
descriptor per keyword". -/
theorem c2_counterexample_skipped_keyword :
    generate_images
        (Except.ok (Json.obj [("keywords", Json.arr [Json.str "mitochondria", Json.num 5])]))
        allWritesOk "generated_images"
      = ["generated_images/mitochondria_1.txt"] ∧
    [Json.str "mitochondria", Json.num 5].length = 2 ∧
    (["generated_images/mitochondria_1.txt"] : List String).length = 1 :=
  ⟨rfl, rfl, rfl⟩

/-- Claim C2 as amended: stage 3 yields exactly one artifact descriptor per
keyword provided every keyword is a string and every placeholder file write
succeeds; a keyword whose processing or write raises is silently skipped,
so in general the generated-files list can be shorter than the keyword
list. -/
theorem c2_images_per_keyword_when_writes_succeed
    (writeOk : String → Bool) (outFolder : String)
    (fs : List (String × Json)) (items : List Json)
    (h1 : List.lookup "keywords" fs = some (Json.arr items))
    (h2 : ∀ x ∈ items, ∃ s, x = Json.str s)
    (h3 : ∀ p, writeOk p = true) :
    (generate_images (Except.ok (Json.obj fs)) writeOk outFolder).length = items.length :=
  generate_images_length writeOk outFolder fs items h1 h2 h3

/-- Witness for the amended C2 at a concrete one-keyword payload. -/
theorem c2_amended_witness :
    (generate_images (Except.ok (Json.obj [("keywords", Json.arr [Json.str "cell"])]))
        allWritesOk "generated_images").length = [Json.str "cell"].length :=
  c2_images_per_keyword_when_writes_succeed allWritesOk "generated_images"
    [("keywords", Json.arr [Json.str "cell"])] [Json.str "cell"] rfl
    (fun x hx => ⟨"cell", by rw [List.mem_singleton] at hx; exact hx⟩)
    (fun _ => rfl)

/-- Claim C3 counterexample: in `envParseFailC3` the stage-2 terminal
answer "I could not produce keywords." does not parse as JSON, yet the run
is not marked failed: `generate_images` catches the `JSONDecodeError` and
returns `[]`, and `run_complete_pipeline` completes with a success
dictionary whose generated-files list has been default-filled to empty —
there is no ContractViolation anywhere in the code. -/
theorem c3_counterexample_parse_failure_defaulted :
    run_complete_pipeline envParseFailC3 "powerhouse of the cell"
      = .ok { script := "SCRIPT TEXT"
              keywords := "I could not produce keywords."
              generated_files := []
              images_folder := "generated_images" } :=
  rfl

/-- Claim C3 as amended: a stage terminal answer that fails to parse is
*not* marked failed; the pipeline silently coerces it — `generate_images`
turns the parse failure into an empty keyword list and the run completes
successfully with zero artifacts. -/
theorem c3_parse_failure_yields_empty_success
    (env : PipelineEnv) (topic script kwtext e : String)
    (h1 : env.scriptResult topic = .ok script)
    (h2 : env.keywordResult script = .ok kwtext)
    (h3 : env.mkdirResult = .ok ())
    (h4 : env.parse kwtext = .error e) :
    run_complete_pipeline env topic
      = .ok { script := script, keywords := kwtext
              generated_files := [], images_folder := "generated_images" } := by
  simp only [run_complete_pipeline, h1, h2, h3, generate_images, h4]

/-- Witness for the amended C3 at the concrete failing run. -/
theorem c3_amended_witness :
    run_complete_pipeline envParseFailC3 "the cell"
      = .ok { script := "SCRIPT TEXT"
              keywords := "I could not produce keywords."
              generated_files := []
              images_folder := "generated_images" } :=
  c3_parse_failure_yields_empty_success envParseFailC3 "the cell" "SCRIPT TEXT"
    "I could not produce keywords." jsonErr rfl rfl rfl rfl

/-- Claim C4 counterexample: in `envAbsorbC4` stage 3 fails internally
(`json.loads` raises on the stage-2 answer), but the catch-all `except`
clauses of `generate_images` convert that failure into an empty artifact
list and the whole run still returns a success dictionary — a stage
failure downgraded to a partial/best-effort success, refuting "a stage
failure fails the whole run". -/
theorem c4_counterexample_stage3_failure_downgraded :
    run_complete_pipeline envAbsorbC4 "powerhouse of the cell"
      = .ok { script := "A fine script."
              keywords := "Sorry, here is prose instead of JSON."
              generated_files := []
              images_folder := "generated_images" } :=
  rfl

/-- Claim C4 as amended: failures in stage 1 (script), stage 2 (keywords)
and the folder creation do fail the whole run — a successful run implies
each of them succeeded and the result returns their outputs verbatim — but
stage-3 failures are absorbed by the catch-alls inside `generate_images`,
whose (possibly empty) output is returned as part of the success result. -/
theorem c4_success_requires_stages_one_two
    (env : PipelineEnv) (topic : String) (res : PipeResult)
    (h : run_complete_pipeline env topic = .ok res) :
    env.scriptResult topic = .ok res.script ∧
    env.keywordResult res.script = .ok res.keywords ∧
    env.mkdirResult = .ok () ∧
    res.generated_files = generate_images (env.parse res.keywords) env.writeOk "generated_images" ∧
    res.images_folder = "generated_images" := by
  unfold run_complete_pipeline at h
  split at h
  · exact absurd h (by simp)
  · rename_i script h1
    split at h
    · exact absurd h (by simp)
    · rename_i kwtext h2
      split at h
      · exact absurd h (by simp)
      · rename_i u h3
        cases u
        injection h with h
        subst h
        exact ⟨h1, h2, h3, rfl, rfl⟩

/-- Witness for the amended C4 at the concrete absorbed-failure run. -/
theorem c4_amended_witness :
    envAbsorbC4.scriptResult "the cell" = .ok "A fine script." ∧
    envAbsorbC4.keywordResult "A fine script." = .ok "Sorry, here is prose instead of JSON." ∧
    envAbsorbC4.mkdirResult = .ok () ∧
    ([] : List String) = generate_images
      (envAbsorbC4.parse "Sorry, here is prose instead of JSON.") envAbsorbC4.writeOk
      "generated_images" ∧
    "generated_images" = "generated_images" :=
  c4_success_requires_stages_one_two envAbsorbC4 "the cell"
    { script := "A fine script.", keywords := "Sorry, here is prose instead of JSON.",
      generated_files := [], images_folder := "generated_images" } rfl

/-- Claim C5 counterexample: in `envTwoKeywordsC5` stage 2's terminal
answer parses to a keyword list of length 2 — outside 5..8 — and nothing
in the code objects: the pipeline completes successfully and stage 3
processes exactly those two keywords.  The 5-8 requirement exists only as
prompt text; no component validates the count. -/
theorem c5_counterexample_two_keywords_accepted :
    run_complete_pipeline envTwoKeywordsC5 "powerhouse of the cell"
      = .ok { script := "A fine script."
              keywords := kwJsonTwo
              generated_files := ["generated_images/energy_1.txt", "generated_images/cell_2.txt"]
              images_folder := "generated_images" } ∧
    envTwoKeywordsC5.parse kwJsonTwo
      = .ok (Json.obj [("keywords", Json.arr [Json.str "energy", Json.str "cell"])]) ∧
    [Json.str "energy", Json.str "cell"].length = 2 ∧ ¬ (5 ≤ 2) :=
  ⟨rfl, rfl, rfl, by decide⟩

/-- Claim C5 as amended: `extract_keywords` returns the model's terminal
answer verbatim and no stage validates the keyword count, so a keyword
list of any length passes through: whenever the stage-2 answer parses to a
keywords array of strings, the run succeeds and stage 3 consumes exactly
that many keywords, whatever their number. -/
theorem c5_no_keyword_count_validation
    (env : PipelineEnv) (topic script kwtext : String)
    (fs : List (String × Json)) (items : List Json)
    (h1 : env.scriptResult topic = .ok script)
    (h2 : env.keywordResult script = .ok kwtext)
    (h3 : env.mkdirResult = .ok ())
    (h4 : env.parse kwtext = .ok (Json.obj fs))
    (h5 : List.lookup "keywords" fs = some (Json.arr items))
    (h6 : ∀ x ∈ items, ∃ s, x = Json.str s)
    (h7 : ∀ p, env.writeOk p = true) :
    ∃ res, run_complete_pipeline env topic = .ok res ∧
      res.keywords = kwtext ∧ res.generated_files.length = items.length := by
  refine ⟨{ script := script, keywords := kwtext
            generated_files := generate_images (env.parse kwtext) env.writeOk "generated_images"
            images_folder := "generated_images" }, ?_, rfl, ?_⟩
  · simp only [run_complete_pipeline, h1, h2, h3]
  · simp only [h4]
    exact generate_images_length env.writeOk "generated_images" fs items h5 h6 h7

/-- Witness for the amended C5 at the concrete two-keyword run. -/
theorem c5_amended_witness :
    ∃ res, run_complete_pipeline envTwoKeywordsC5 "the cell" = .ok res ∧
      res.keywords = kwJsonTwo ∧
      res.generated_files.length = [Json.str "energy", Json.str "cell"].length :=
  c5_no_keyword_count_validation envTwoKeywordsC5 "the cell" "A fine script." kwJsonTwo
    [("keywords", Json.arr [Json.str "energy", Json.str "cell"])]
    [Json.str "energy", Json.str "cell"]
    rfl rfl rfl rfl rfl
    (fun x hx => by
      rcases List.mem_cons.mp hx with h | h
      · exact ⟨"energy", h⟩
      · exact ⟨"cell", by rw [List.mem_singleton] at h; exact h⟩)
    (fun _ => rfl)

/-- Claim C9: when the stage-2 text is not valid JSON, or is valid JSON
whose object lacks a `keywords` key, `generate_images` returns the empty
list rather than any error value, and the pipeline completes as if stage 3
succeeded with zero artifacts. -/
theorem c9_bad_keywords_payload_yields_empty
    (env : PipelineEnv) (topic script kwtext e : String)
    (h1 : env.scriptResult topic = .ok script)
    (h2 : env.keywordResult script = .ok kwtext)
    (h3 : env.mkdirResult = .ok ())
    (h4 : env.parse kwtext = .error e ∨
          ∃ fs, env.parse kwtext = .ok (Json.obj fs) ∧ List.lookup "keywords" fs = none) :
    generate_images (env.parse kwtext) env.writeOk "generated_images" = [] ∧
    run_complete_pipeline env topic
      = .ok { script := script, keywords := kwtext
              generated_files := [], images_folder := "generated_images" } := by
  have hempty : generate_images (env.parse kwtext) env.writeOk "generated_images" = [] := by
    rcases h4 with h4 | ⟨fs, h4, h5⟩
    · simp only [generate_images, h4]
    · simp only [generate_images, h4, h5, imageLoop]
  refine ⟨hempty, ?_⟩
  simp only [run_complete_pipeline, h1, h2, h3, hempty]

/-- Witness for C9 at the concrete missing-key run. -/
theorem c9_witness :
    generate_images (envNoKeywordsKeyC9.parse "\x7b\"words\": []\x7d")
        envNoKeywordsKeyC9.writeOk "generated_images" = [] ∧
    run_complete_pipeline envNoKeywordsKeyC9 "the cell"
      = .ok { script := "A fine script."
              keywords := "\x7b\"words\": []\x7d"
              generated_files := []
              images_folder := "generated_images" } :=
  c9_bad_keywords_payload_yields_empty envNoKeywordsKeyC9 "the cell" "A fine script."
    "\x7b\"words\": []\x7d" jsonErr rfl rfl rfl
    (Or.inr ⟨[("words", Json.arr [])], rfl, rfl⟩)

/-- Claim C8 counterexample: an environment in which `GOOGLE_API_KEY` *is
present* but set to the empty string (e.g. `GOOGLE_API_KEY= python
autonomous_agent.py`).  `os.getenv` returns `""`, which is falsy, so the
`assert` still raises — refuting "if it is present, startup proceeds". -/
theorem c8_counterexample_empty_key_present_fails :
    emptyKeyEnv "GOOGLE_API_KEY" = some "" ∧
    module_init emptyKeyEnv = .error "Set GOOGLE_API_KEY in .env" :=
  ⟨rfl, rfl⟩

/-- Claim C8 as amended: startup proceeds (agents are constructed) exactly
when `GOOGLE_API_KEY` is present *with a non-empty value*; when it is
absent — or present but empty, both falsy to the `assert` — startup fails
with the assertion message before any agent, session or pipeline object is
constructed. -/
theorem c8_startup_iff_nonempty_key (env : String → Option String) :
    ((∃ st, module_init env = .ok st) ↔ (∃ v, env "GOOGLE_API_KEY" = some v ∧ v ≠ "")) ∧
    (module_init env = .error "Set GOOGLE_API_KEY in .env" ↔
      pyTruthy (env "GOOGLE_API_KEY") = false) := by
  unfold module_init
  cases henv : env "GOOGLE_API_KEY" with
  | none =>
    simp only [pyTruthy]
    constructor
    · constructor
      · rintro ⟨st, hst⟩
        exact absurd hst (by simp)
      · rintro ⟨v, hv, _⟩
        exact absurd hv (by simp)
    · simp
  | some s =>
    by_cases hs : s = ""
    · subst hs
      simp only [pyTruthy]
      constructor
      · constructor
        · rintro ⟨st, hst⟩
          exact absurd hst (by simp)
        · rintro ⟨v, hv, hne⟩
          injection hv with hv
          exact absurd hv.symm hne
      · simp
    · have ht : pyTruthy (some s) = true := by
        simp [pyTruthy, hs]
      simp only [pyTruthy]
      constructor
      · constructor
        · intro _
          exact ⟨s, rfl, hs⟩
        · intro _
          simp [bne_iff_ne.mpr hs]
      · constructor
        · intro hcontra
          rw [if_pos (by simp [bne_iff_ne.mpr hs])] at hcontra
          exact absurd hcontra (by simp)
        · intro hcontra
          simp [bne_iff_ne.mpr hs] at hcontra

/-- `asString` and `toList` are mutually inverse on the list side. -/
theorem asString_toList (l : List Char) : l.asString.toList = l := rfl

/-- `toList` distributes over string append. -/
theorem toList_append (a b : String) : (a ++ b).toList = a.toList ++ b.toList :=
  String.data_append a b

/-- An uppercase ASCII letter or digit is not a period. -/
theorem upperDigit_ne_dot (c : Char)
    (h : ('A' ≤ c ∧ c ≤ 'Z') ∨ ('0' ≤ c ∧ c ≤ '9')) : c ≠ '.' := by
  intro heq
  subst heq
  revert h
  decide

/-- The character list of the audio filename, split at its final `.mp3`. -/
theorem audioFilename_toList (index : Int) (r : String) :
    (audioFilename index r).toList
      = ("static/audio/".toList ++ (pyStrInt index).toList ++ "_".toList ++ r.toList)
        ++ ".mp3".toList := by
  simp [audioFilename, toList_append, List.append_assoc]

/-- No character of the stem before `.mp3` is a period (the index renders
to digits and a possible minus sign, the random characters are uppercase
letters or digits). -/
theorem audioStem_ne_dot (index : Int) (r : String)
    (hchars : ∀ c ∈ r.toList, ('A' ≤ c ∧ c ≤ 'Z') ∨ ('0' ≤ c ∧ c ≤ '9')) :
    ∀ c ∈ "static/audio/".toList ++ (pyStrInt index).toList ++ "_".toList ++ r.toList,
      c ≠ '.' := by
  intro c hc
  rcases List.mem_append.mp hc with hc | hc
  · rcases List.mem_append.mp hc with hc | hc
    · rcases List.mem_append.mp hc with hc | hc
      · exact (by decide : ∀ x ∈ "static/audio/".toList, x ≠ '.') c hc
      · exact pyStrInt_ne_dot index c hc
    · exact (by decide : ∀ x ∈ "_".toList, x ≠ '.') c hc
  · exact upperDigit_ne_dot c (hchars c hc)

/-- `filename.replace('.mp3', '.txt')` on the audio filename swaps exactly
the final extension: the only period in the filename is the one opening
`.mp3`. -/
theorem audioFilename_replace (index : Int) (r : String)
    (hchars : ∀ c ∈ r.toList, ('A' ≤ c ∧ c ≤ 'Z') ∨ ('0' ≤ c ∧ c ≤ '9')) :
    pyReplace (audioFilename index r) ".mp3" ".txt"
      = "static/audio/" ++ pyStrInt index ++ "_" ++ r ++ ".txt" := by
  have hpat : ".mp3".toList = '.' :: "mp3".toList := rfl
  have key : (pyReplace (audioFilename index r) ".mp3" ".txt").toList
      = ("static/audio/".toList ++ (pyStrInt index).toList ++ "_".toList ++ r.toList)
        ++ ".txt".toList := by
    show (replaceAllGo ".mp3".toList ".txt".toList (audioFilename index r).toList.length
        (audioFilename index r).toList).asString.toList = _
    rw [asString_toList, audioFilename_toList, hpat]
    exact replaceAllGo_stem "mp3".toList ".txt".toList _ _ (le_refl _)
      (audioStem_ne_dot index r hchars)
  apply String.ext
  show (pyReplace (audioFilename index r) ".mp3" ".txt").toList
      = ("static/audio/" ++ pyStrInt index ++ "_" ++ r ++ ".txt").toList
  rw [key]
  simp [toList_append, List.append_assoc]

/-- The reported `.mp3` path differs from the `.txt` path actually
written. -/
theorem audioFilename_ne_txt (index : Int) (r : String) :
    audioFilename index r ≠ "static/audio/" ++ pyStrInt index ++ "_" ++ r ++ ".txt" := by
  intro heq
  have h1 := congrArg String.toList heq
  rw [audioFilename_toList] at h1
  have h2 : ("static/audio/" ++ pyStrInt index ++ "_" ++ r ++ ".txt").toList
      = ("static/audio/".toList ++ (pyStrInt index).toList ++ "_".toList ++ r.toList)
        ++ ".txt".toList := by
    simp [toList_append, List.append_assoc]
  rw [h2] at h1
  have h3 := List.append_cancel_left h1
  exact absurd h3 (by decide)

/-- Claim C10: a successful `generate_audio_file` call reports a `text`
field equal to the input text and an `audio_file` field of the form
`static/audio/{index}_CCCC.mp3` with `CCCC` the four characters drawn from
uppercase ASCII letters and digits, while the file actually written to
disk is that same path with `.mp3` replaced by `.txt`; the reported `.mp3`
path itself is never written. -/
theorem c10_audio_report_vs_write (text : String) (index : Int) (aenv : AudioEnv)
    (hm : aenv.mkdirResult = .ok ())
    (hw : aenv.writeResult = .ok ())
    (hlen : aenv.randomChars.length = 4)
    (hchars : ∀ c ∈ aenv.randomChars.toList, ('A' ≤ c ∧ c ≤ 'Z') ∨ ('0' ≤ c ∧ c ≤ '9')) :
    (generate_audio_file text index aenv).fst
      = Json.obj [("audio_file", Json.str (audioFilename index aenv.randomChars)),
                  ("text", Json.str text)] ∧
    audioFilename index aenv.randomChars
      = "static/audio/" ++ pyStrInt index ++ "_" ++ aenv.randomChars ++ ".mp3" ∧
    (generate_audio_file text index aenv).snd
      = ["static/audio/" ++ pyStrInt index ++ "_" ++ aenv.randomChars ++ ".txt"] ∧
    audioFilename index aenv.randomChars ∉ (generate_audio_file text index aenv).snd ∧
    aenv.randomChars.length = 4 := by
  have hgen : generate_audio_file text index aenv
      = (Json.obj [("audio_file", Json.str (audioFilename index aenv.randomChars)),
                   ("text", Json.str text)],
         [pyReplace (audioFilename index aenv.randomChars) ".mp3" ".txt"]) := by
    simp only [generate_audio_file, hm, hw]
  refine ⟨by rw [hgen], rfl, ?_, ?_, hlen⟩
  · rw [hgen]
    rw [audioFilename_replace index aenv.randomChars hchars]
  · rw [hgen]
    simp only [List.mem_singleton]
    rw [audioFilename_replace index aenv.randomChars hchars]
    exact audioFilename_ne_txt index aenv.randomChars

/-- Witness for C10 at a concrete call. -/
theorem c10_witness :
    (generate_audio_file "hello world" 3 audioEnvW).fst
      = Json.obj [("audio_file", Json.str (audioFilename 3 audioEnvW.randomChars)),
                  ("text", Json.str "hello world")] ∧
    audioFilename 3 audioEnvW.randomChars
      = "static/audio/" ++ pyStrInt 3 ++ "_" ++ audioEnvW.randomChars ++ ".mp3" ∧
    (generate_audio_file "hello world" 3 audioEnvW).snd
      = ["static/audio/" ++ pyStrInt 3 ++ "_" ++ audioEnvW.randomChars ++ ".txt"] ∧
    audioFilename 3 audioEnvW.randomChars ∉ (generate_audio_file "hello world" 3 audioEnvW).snd ∧
    audioEnvW.randomChars.length = 4 :=
  c10_audio_report_vs_write "hello world" 3 audioEnvW rfl rfl rfl (by decide)

/-- Witness for the amended C8 at the concrete empty-valued environment. -/
theorem c8_witness :
    ((∃ st, module_init emptyKeyEnv = .ok st) ↔
      (∃ v, emptyKeyEnv "GOOGLE_API_KEY" = some v ∧ v ≠ "")) ∧
    (module_init emptyKeyEnv = .error "Set GOOGLE_API_KEY in .env" ↔
      pyTruthy (emptyKeyEnv "GOOGLE_API_KEY") = false) :=
  c8_startup_iff_nonempty_key emptyKeyEnv
